import Mathlib

/-!
Verification development for two OpenMetadata UI form components:
the test case status modal (TestCaseStatusModal) and the user creation
form (CreateUser). The pure logic of each handler is embedded as
executable Lean definitions; network calls and caller supplied callbacks
are treated as parameters or as entries of an emitted event list.
-/

set_option autoImplicit false

/-- Status enum of a test case incident. The generated enum module is not part
of the excerpt. Modelled from the spec: lifecycle states of a data quality test
case incident; the spec names Assigned and Resolved, and the generated enum
additionally carries Ack and New. No claim depends on the exact member list
beyond Assigned and Resolved being present. -/
inductive TestCaseResolutionStatusTypes where
  | Ack
  | Assigned
  | New
  | Resolved
  deriving DecidableEq

/-- Failure reason enum of the Resolved subform. Modelled from the spec: the
generated tests module is not in the excerpt; the spec scenario names the
member Duplicate. -/
inductive TestCaseFailureReasonType where
  | Duplicate
  | FalsePositive
  | MissingData
  | OutOfBounds
  | Other
  deriving DecidableEq

/-- Entity type tags used when building entity references. Modelled from the
spec: only the USER tag is written by the excerpt; TEAM is kept so that the
type is not a singleton. -/
inductive EntityType where
  | USER
  | TEAM
  deriving DecidableEq

/-- Reference to an entity, as attached to the outgoing request by
handleFormSubmit. -/
structure EntityReference where
  id : String
  type : EntityType
  name : Option String
  displayName : Option String
  deriving DecidableEq

/-- Current user record; only the identity fields consumed by
getEntityReferenceFromEntity appear. -/
structure User where
  id : String
  name : String
  displayName : Option String
  deriving DecidableEq

/-- Modelled from the spec: getEntityReferenceFromEntity lives in EntityUtils,
which is not in the excerpt; it derives the entity reference of an entity with
the given entity type. The claim theorems abstract over the derivation map and
only this concrete instance, used by witnesses, fixes a shape. -/
def getEntityReferenceFromEntity (u : User) (t : EntityType) : EntityReference :=
  { id := u.id, type := t, name := some u.name, displayName := u.displayName }

/-- Option item delivered by the assignee picker: the selected option carries
value (the picked id), name and displayName, exactly the fields read by the
Assigned branch of handleFormSubmit. -/
structure Assignee where
  value : String
  name : Option String
  displayName : Option String
  deriving DecidableEq

/-- Runtime content of the assignee slot of a details object. The form keeps
the raw selection list in this slot, and the Assigned branch of
handleFormSubmit overwrites it with a single EntityReference; both dynamic
shapes of the source are represented. -/
inductive AssigneeField where
  | selectionList (items : List Assignee)
  | entityRef (ref : EntityReference)
  deriving DecidableEq

/-- Details object of the status request, mirroring
testCaseResolutionStatusDetails with every field optional. -/
structure TestCaseResolutionStatusDetails where
  testCaseFailureReason : Option TestCaseFailureReasonType
  testCaseFailureComment : Option String
  resolvedBy : Option EntityReference
  assignee : Option AssigneeField
  deriving DecidableEq

/-- Details object with no field set; the image of an undefined object under a
JS spread. -/
def emptyDetails : TestCaseResolutionStatusDetails :=
  { testCaseFailureReason := none
    testCaseFailureComment := none
    resolvedBy := none
    assignee := none }

/-- Outgoing request shape CreateTestCaseResolutionStatus. -/
structure CreateTestCaseResolutionStatus where
  testCaseResolutionStatusType : TestCaseResolutionStatusTypes
  testCaseReference : Option String
  testCaseResolutionStatusDetails : Option TestCaseResolutionStatusDetails
  deriving DecidableEq

/-- Values held by the status form: the status select, the two Resolved
fields, and the assignee selection list watched as updatedAssignees. An
untouched assignee field is represented by the empty list; the antd required
rule rejects both an undefined and an empty array value, so the encoding
keeps the submission gating of the source. -/
structure StatusFormValues where
  testCaseResolutionStatusType : Option TestCaseResolutionStatusTypes
  testCaseFailureReason : Option TestCaseFailureReasonType
  testCaseFailureComment : Option String
  assignee : List Assignee
  deriving DecidableEq

/-- Details object carried inside the form values, as seen by the JS spread in
handleFormSubmit: the nested object exists exactly when some nested field was
set. -/
def formDetails (v : StatusFormValues) : Option TestCaseResolutionStatusDetails :=
  if v.testCaseFailureReason.isNone ∧ v.testCaseFailureComment.isNone ∧ v.assignee.isEmpty
  then none
  else some
    { testCaseFailureReason := v.testCaseFailureReason
      testCaseFailureComment := v.testCaseFailureComment
      resolvedBy := none
      assignee := if v.assignee.isEmpty then none
                  else some (AssigneeField.selectionList v.assignee) }

/-- Pure request composition performed by handleFormSubmit before the network
call: spread the form data, attach testCaseReference, then branch on the
status type. The Resolved branch re-spreads the details and sets resolvedBy
from the current user through the derivation map toRef; the Assigned branch,
guarded by a nonempty selection, overwrites the assignee slot with an
EntityReference built from the first selected assignee, typed USER. -/
def handleFormSubmitRequest (v : StatusFormValues)
    (st : TestCaseResolutionStatusTypes) (testCaseFqn : String)
    (currentUser : Option User) (toRef : User → EntityType → EntityReference) :
    CreateTestCaseResolutionStatus :=
  let base : CreateTestCaseResolutionStatus :=
    { testCaseResolutionStatusType := st
      testCaseReference := some testCaseFqn
      testCaseResolutionStatusDetails := formDetails v }
  match st with
  | TestCaseResolutionStatusTypes.Resolved =>
      { base with
        testCaseResolutionStatusDetails :=
          some ({ (formDetails v).getD emptyDetails with
            resolvedBy := currentUser.map (fun u => toRef u EntityType.USER) }) }
  | TestCaseResolutionStatusTypes.Assigned =>
      match v.assignee with
      | a :: _ =>
          { base with
            testCaseResolutionStatusDetails :=
              some ({ (formDetails v).getD emptyDetails with
                assignee := some (AssigneeField.entityRef
                  { id := a.value
                    type := EntityType.USER
                    name := a.name
                    displayName := a.displayName }) }) }
      | [] => base
  | _ => base

/-- Field level validation run by the antd form before onFinish fires: the
status select is required; the Resolved subform requires a reason and a
nonempty comment; the Assigned subform requires a nonempty assignee
selection. -/
def validateStatusForm (v : StatusFormValues) : Bool :=
  v.testCaseResolutionStatusType.isSome &&
  (match v.testCaseResolutionStatusType with
   | some TestCaseResolutionStatusTypes.Resolved =>
       v.testCaseFailureReason.isSome &&
       (match v.testCaseFailureComment with
        | some c => decide (c ≠ "")
        | none => false)
   | some TestCaseResolutionStatusTypes.Assigned => !v.assignee.isEmpty
   | _ => true)

/-- Validate then compose: the request reaches the network exactly when the
form validates, in which case handleFormSubmit receives the form values and
builds the request. -/
def submitStatusForm (v : StatusFormValues) (testCaseFqn : String)
    (currentUser : Option User) (toRef : User → EntityType → EntityReference) :
    Option CreateTestCaseResolutionStatus :=
  match v.testCaseResolutionStatusType with
  | some st =>
      if validateStatusForm v
      then some (handleFormSubmitRequest v st testCaseFqn currentUser toRef)
      else none
  | none => none

/-- Select option of the status dropdown; the source maps each enum value to a
label and value pair with both components equal to the value. -/
structure StatusOption where
  label : TestCaseResolutionStatusTypes
  value : TestCaseResolutionStatusTypes
  deriving DecidableEq

/-- Image of Object.values over the status enum, in declaration order of the
generated module. -/
def allStatusValues : List TestCaseResolutionStatusTypes :=
  [TestCaseResolutionStatusTypes.Ack, TestCaseResolutionStatusTypes.Assigned,
   TestCaseResolutionStatusTypes.New, TestCaseResolutionStatusTypes.Resolved]

/-- Options offered by the status select: once the existing status is
Assigned only Assigned and Resolved remain, otherwise every enum value is
offered. -/
def statusOptions (priorStatus : Option TestCaseResolutionStatusTypes) :
    List StatusOption :=
  let status :=
    if priorStatus = some TestCaseResolutionStatusTypes.Assigned
    then [TestCaseResolutionStatusTypes.Assigned,
          TestCaseResolutionStatusTypes.Resolved]
    else allStatusValues
  status.map (fun value => { label := value, value := value })

/-- Observable step of handleFormSubmit, over an abstract network error type ε
and response type ρ. The handler mutates no other local state, so this
vocabulary is exhaustive for the submission path; in particular the form
fields are untouched and the modal closes only through onCancelCalled. -/
inductive SubmitEvent (ε ρ : Type) where
  | setIsLoading (b : Bool)
  | postIncidentStatus (req : CreateTestCaseResolutionStatus)
  | onSubmitCalled (resp : ρ)
  | onCancelCalled
  | errorToast (e : ε)
  deriving DecidableEq

/-- Event trace of handleFormSubmit for a given network outcome: set the busy
flag, post the composed request, then either invoke the submit callback with
the response and close via the cancel callback, or show an error toast; the
finally block clears the busy flag in every case and no exception escapes the
handler. -/
def handleFormSubmitEvents {ε ρ : Type} (v : StatusFormValues)
    (st : TestCaseResolutionStatusTypes) (testCaseFqn : String)
    (currentUser : Option User) (toRef : User → EntityType → EntityReference)
    (netResult : Except ε ρ) : List (SubmitEvent ε ρ) :=
  [SubmitEvent.setIsLoading true,
   SubmitEvent.postIncidentStatus
     (handleFormSubmitRequest v st testCaseFqn currentUser toRef)] ++
  (match netResult with
   | Except.ok resp => [SubmitEvent.onSubmitCalled resp, SubmitEvent.onCancelCalled]
   | Except.error e => [SubmitEvent.errorToast e]) ++
  [SubmitEvent.setIsLoading false]

/-- Auth mechanism enum of a bot account. -/
inductive AuthType where
  | Basic
  | Jwt
  | Sso
  deriving DecidableEq

/-- JWT token expiry enum. Modelled from the spec: the generated module is not
in the excerpt and no claim depends on the member list; the default of the
form is OneHour. -/
inductive JWTTokenExpiry where
  | OneHour
  | Unlimited
  deriving DecidableEq

/-- SSO provider enum, one member per provider specific credential subform. -/
inductive SsoServiceType where
  | Google
  | Auth0
  | Azure
  | Okta
  | CustomOidc
  deriving DecidableEq

/-- Password mode enum; the member spelling AutomatciGenerate follows the
generated source. -/
inductive CreatePasswordGenerator where
  | AutomatciGenerate
  | CreatePassword
  deriving DecidableEq

/-- Password creation type enum; the form always submits Admincreate. -/
inductive CreatePasswordType where
  | Admincreate
  deriving DecidableEq

/-- Union of every provider specific credential field, mirroring the single
ssoClientConfig object the component threads through all provider subforms. A
field holds some value exactly when the matching change event has set it, so
the set fields coincide with the keys of the JS object. -/
structure SSOClientConfig where
  secretKey : Option String
  audience : Option String
  clientId : Option String
  domain : Option String
  clientSecret : Option String
  authority : Option String
  scopes : Option (List String)
  privateKey : Option String
  orgURL : Option String
  email : Option String
  tokenEndpoint : Option String
  deriving DecidableEq

/-- Config object with no key set, the initial {} value of the state. -/
def emptySSOClientConfig : SSOClientConfig :=
  { secretKey := none
    audience := none
    clientId := none
    domain := none
    clientSecret := none
    authority := none
    scopes := none
    privateKey := none
    orgURL := none
    email := none
    tokenEndpoint := none }

/-- Keys present on the ssoClientConfig object, in field declaration order. -/
def SSOClientConfig.setKeys (c : SSOClientConfig) : List String :=
  (if c.secretKey.isSome then ["secretKey"] else []) ++
  (if c.audience.isSome then ["audience"] else []) ++
  (if c.clientId.isSome then ["clientId"] else []) ++
  (if c.domain.isSome then ["domain"] else []) ++
  (if c.clientSecret.isSome then ["clientSecret"] else []) ++
  (if c.authority.isSome then ["authority"] else []) ++
  (if c.scopes.isSome then ["scopes"] else []) ++
  (if c.privateKey.isSome then ["privateKey"] else []) ++
  (if c.orgURL.isSome then ["orgURL"] else []) ++
  (if c.email.isSome then ["email"] else []) ++
  (if c.tokenEndpoint.isSome then ["tokenEndpoint"] else [])

/-- Local state of the CreateUser component, one field per useState slot that
feeds handleSave. -/
structure CreateUserState where
  email : String
  displayName : String
  isAdmin : Bool
  isBot : Bool
  selectedRoles : List (Option String)
  selectedTeams : List (Option String)
  password : String
  confirmPassword : String
  passwordGenerator : CreatePasswordGenerator
  generatedPassword : String
  authMechanism : AuthType
  tokenExpiry : JWTTokenExpiry
  ssoClientConfig : SSOClientConfig
  deriving DecidableEq

/-- Initial state of the component, from the useState defaults. -/
def initialCreateUserState (forceBot : Bool) : CreateUserState :=
  { email := ""
    displayName := ""
    isAdmin := false
    isBot := forceBot
    selectedRoles := []
    selectedTeams := []
    password := ""
    confirmPassword := ""
    passwordGenerator := CreatePasswordGenerator.AutomatciGenerate
    generatedPassword := ""
    authMechanism := AuthType.Jwt
    tokenExpiry := JWTTokenExpiry.OneHour
    ssoClientConfig := emptySSOClientConfig }

/-- JavaScript String.prototype.split on a single character separator,
written over the character list of the string. split never returns an empty
list: the empty string splits to one empty component. -/
def jsSplit (sep : Char) : List Char → List (List Char)
  | [] => [[]]
  | c :: rest =>
      if c = sep then [] :: jsSplit sep rest
      else
        match jsSplit sep rest with
        | [] => [[c]]
        | h :: t => (c :: h) :: t

/-- Change event dispatched to handleOnChange; the constructor stands for the
name attribute of the originating input, the payload for the input value. The
otherField constructor covers the default branch of the switch. -/
inductive ChangeEvent where
  | email (v : String)
  | displayName (v : String)
  | secretKey (v : String)
  | audience (v : String)
  | clientId (v : String)
  | domain (v : String)
  | clientSecret (v : String)
  | authority (v : String)
  | scopes (v : String)
  | privateKey (v : String)
  | orgURL (v : String)
  | oktaEmail (v : String)
  | tokenEndpoint (v : String)
  | password (v : String)
  | confirmPassword (v : String)
  | passwordGenerator (v : CreatePasswordGenerator)
  | otherField
  deriving DecidableEq

/-- Switch body of handleOnChange: each named input updates its own state
slot; the provider credential inputs merge one key into ssoClientConfig; the
oktaEmail input writes the email key of the config; the scopes input splits a
nonempty value on commas and stores an empty list otherwise. -/
def handleOnChange (s : CreateUserState) (e : ChangeEvent) : CreateUserState :=
  match e with
  | ChangeEvent.email v => { s with email := v }
  | ChangeEvent.displayName v => { s with displayName := v }
  | ChangeEvent.secretKey v =>
      { s with ssoClientConfig := { s.ssoClientConfig with secretKey := some v } }
  | ChangeEvent.audience v =>
      { s with ssoClientConfig := { s.ssoClientConfig with audience := some v } }
  | ChangeEvent.clientId v =>
      { s with ssoClientConfig := { s.ssoClientConfig with clientId := some v } }
  | ChangeEvent.domain v =>
      { s with ssoClientConfig := { s.ssoClientConfig with domain := some v } }
  | ChangeEvent.clientSecret v =>
      { s with ssoClientConfig := { s.ssoClientConfig with clientSecret := some v } }
  | ChangeEvent.authority v =>
      { s with ssoClientConfig := { s.ssoClientConfig with authority := some v } }
  | ChangeEvent.scopes v =>
      { s with ssoClientConfig :=
          { s.ssoClientConfig with
            scopes := some (if v = "" then []
                            else (jsSplit ',' v.data).map String.mk) } }
  | ChangeEvent.privateKey v =>
      { s with ssoClientConfig := { s.ssoClientConfig with privateKey := some v } }
  | ChangeEvent.orgURL v =>
      { s with ssoClientConfig := { s.ssoClientConfig with orgURL := some v } }
  | ChangeEvent.oktaEmail v =>
      { s with ssoClientConfig := { s.ssoClientConfig with email := some v } }
  | ChangeEvent.tokenEndpoint v =>
      { s with ssoClientConfig := { s.ssoClientConfig with tokenEndpoint := some v } }
  | ChangeEvent.password v => { s with password := v }
  | ChangeEvent.confirmPassword v => { s with confirmPassword := v }
  | ChangeEvent.passwordGenerator v => { s with passwordGenerator := v }
  | ChangeEvent.otherField => s

/-- Config payload of the authenticationMechanism: a JWT object holding the
key JWTTokenExpiry, or an SSO object holding the keys ssoServiceType and
authConfig. The ssoServiceType key is present on the JS object even when the
application auth provider is undefined. -/
inductive AuthMechanismConfig where
  | jwt (expiry : JWTTokenExpiry)
  | sso (ssoServiceType : Option SsoServiceType) (authConfig : SSOClientConfig)
  deriving DecidableEq

/-- Keys of the composed config object. -/
def AuthMechanismConfig.topLevelKeys : AuthMechanismConfig → List String
  | AuthMechanismConfig.jwt _ => ["JWTTokenExpiry"]
  | AuthMechanismConfig.sso _ _ => ["ssoServiceType", "authConfig"]

/-- Authentication mechanism of the composed bot payload. -/
structure AuthenticationMechanism where
  authType : AuthType
  config : AuthMechanismConfig
  deriving DecidableEq

/-- Payload handed to the onSave callback, mirroring the CreateUser schema. -/
structure CreateUserSchema where
  description : Option String
  name : String
  displayName : String
  roles : Option (List String)
  teams : Option (List String)
  email : String
  isAdmin : Bool
  isBot : Bool
  password : String
  confirmPassword : String
  createPasswordType : CreatePasswordType
  authenticationMechanism : Option AuthenticationMechanism
  deriving DecidableEq

/-- Payload composition of handleSave: the name is the first component of the
email split at the at sign, defined roles and teams survive as lists only when
nonempty, the password pair is the generated password in automatic mode, and
only a bot form attaches an authenticationMechanism whose config branches on
the auth mechanism. The editorContent parameter stands for the markdown editor
content; the JS or-with-undefined collapses an empty string to no
description. -/
def handleSave (forceBot : Bool) (authConfigProvider : Option SsoServiceType)
    (editorContent : Option String) (s : CreateUserState) : CreateUserSchema :=
  let validRole := s.selectedRoles.filterMap (fun x => x)
  let validTeam := s.selectedTeams.filterMap (fun x => x)
  { description :=
      match editorContent with
      | some c => if c = "" then none else some c
      | none => none
    name := String.mk ((jsSplit '@' s.email.data).headD [])
    displayName := s.displayName
    roles := if validRole.length ≠ 0 then some validRole else none
    teams := if validTeam.length ≠ 0 then some validTeam else none
    email := s.email
    isAdmin := s.isAdmin
    isBot := s.isBot
    password :=
      if s.passwordGenerator = CreatePasswordGenerator.AutomatciGenerate
      then s.generatedPassword else s.password
    confirmPassword :=
      if s.passwordGenerator = CreatePasswordGenerator.AutomatciGenerate
      then s.generatedPassword else s.confirmPassword
    createPasswordType := CreatePasswordType.Admincreate
    authenticationMechanism :=
      if forceBot then
        some { authType := s.authMechanism
               config :=
                 if s.authMechanism = AuthType.Jwt
                 then AuthMechanismConfig.jwt s.tokenExpiry
                 else AuthMechanismConfig.sso authConfigProvider s.ssoClientConfig }
      else none }

/-- State reached when a bot form with provider Okta has its four required
credential inputs filled: the four change events applied to the initial state,
with the auth mechanism switched to Sso through the select. -/
def oktaScenarioState (pk cid org em : String) : CreateUserState :=
  { (List.foldl handleOnChange (initialCreateUserState true)
      [ChangeEvent.privateKey pk, ChangeEvent.clientId cid,
       ChangeEvent.orgURL org, ChangeEvent.oktaEmail em]) with
    authMechanism := AuthType.Sso }

/-- Validator of the confirm password field: reject when the value differs
from the password, resolve otherwise. The source message text is a mismatch
notice. -/
def confirmPasswordValidator (password value : String) : Except String Unit :=
  if value ≠ password then Except.error "Password mismatch" else Except.ok ()

/-- Boolean reading of the confirm password validator. -/
def passesConfirmRule (password value : String) : Bool :=
  match confirmPasswordValidator password value with
  | Except.ok _ => true
  | Except.error _ => false

/-- Outcome of the antd required rule on a text input: an empty value is
rejected. -/
def requiredString (v : String) : Bool :=
  decide (v ≠ "")

/-- Validation of the manual password subform: both inputs are required and
the confirmation validator must resolve. -/
def manualPasswordValid (s : CreateUserState) : Bool :=
  requiredString s.password && requiredString s.confirmPassword &&
    passesConfirmRule s.password s.confirmPassword

/-- Validation of whichever password subform is mounted: manual entry checks
the password pair, automatic mode requires a generated password. -/
def passwordSectionValid (s : CreateUserState) : Bool :=
  match s.passwordGenerator with
  | CreatePasswordGenerator.CreatePassword => manualPasswordValid s
  | CreatePasswordGenerator.AutomatciGenerate => requiredString s.generatedPassword

/-- Submission gate of the create user form: onFinish, and with it the onSave
callback, fires exactly when every mounted field validates. The
otherFieldsValid flag abstracts the remaining field rules (the email pair of
rules with its external regex, and the bot auth selects), which live outside
the excerpt or carry no logic of their own. A some result is the payload
handed to onSave; none means onSave is never invoked. -/
def submitCreateUserForm (otherFieldsValid : Bool) (forceBot : Bool)
    (authConfigProvider : Option SsoServiceType) (editorContent : Option String)
    (s : CreateUserState) : Option CreateUserSchema :=
  if otherFieldsValid && passwordSectionValid s
  then some (handleSave forceBot authConfigProvider editorContent s)
  else none

/-- Removal of the first occurrence, the effect of indexOf plus splice on a
list known to contain the element; the handler only reaches this path behind
an includes guard, so the behaviour of splice at index minus one never
applies. -/
def removeFirst : List (Option String) → Option String → List (Option String)
  | [], _ => []
  | x :: xs, id => if x = id then xs else x :: removeFirst xs id

/-- Toggle handler of the role multi select: a present id is removed at its
first index, an absent id is appended. Membership written with the list
element order of JS includes under strict equality. -/
def selectedRolesHandler (prevState : List (Option String)) (id : Option String) :
    List (Option String) :=
  if id ∈ prevState then removeFirst prevState id
  else prevState ++ [id]

/-- Primitive action of the generate password flow. -/
inductive PwdAction where
  | setIsPasswordGenerating (b : Bool)
  | callGenerateRandomPwd
  | setGeneratedPassword (p : String)
  | setFormFieldValue (p : String)
  | showPwdErrorToast
  deriving DecidableEq

/-- Step of the generate password flow: an action performed at once, or a
batch of actions scheduled behind a timeout of the given milliseconds. -/
inductive PwdEvent where
  | now (a : PwdAction)
  | deferred (delayMs : Nat) (actions : List PwdAction)
  deriving DecidableEq

/-- Event trace of generateRandomPassword: raise the busy flag, call the
network; on success schedule the two password updates behind a 500 ms timeout,
on failure toast at once; the finally block lowers the busy flag immediately
when the call completes. -/
def generateRandomPasswordEvents (netResult : Except Unit String) : List PwdEvent :=
  [PwdEvent.now (PwdAction.setIsPasswordGenerating true),
   PwdEvent.now PwdAction.callGenerateRandomPwd] ++
  (match netResult with
   | Except.ok pwd =>
       [PwdEvent.deferred 500
         [PwdAction.setGeneratedPassword pwd, PwdAction.setFormFieldValue pwd]]
   | Except.error _ => [PwdEvent.now PwdAction.showPwdErrorToast]) ++
  [PwdEvent.now (PwdAction.setIsPasswordGenerating false)]

/-- Test whether an action lowers the busy flag of the password generator. -/
def clearsBusyFlag : PwdAction → Bool
  | PwdAction.setIsPasswordGenerating false => true
  | _ => false

/-- Test whether an event defers the lowering of the busy flag behind a
timeout. -/
def deferredBusyClear : PwdEvent → Bool
  | PwdEvent.deferred _ acts => acts.any clearsBusyFlag
  | _ => false

/-- Concrete current user for witnesses. -/
def witnessUser : User :=
  { id := "u-1", name := "alice", displayName := some "Alice" }

/-- Concrete Resolved form values for witnesses, after the spec scenario. -/
def witnessResolvedValues : StatusFormValues :=
  { testCaseResolutionStatusType := some TestCaseResolutionStatusTypes.Resolved
    testCaseFailureReason := some TestCaseFailureReasonType.Duplicate
    testCaseFailureComment := some "dup of X"
    assignee := [] }

/-- Concrete Assigned form values for witnesses, with one selected
assignee. -/
def witnessAssignedValues : StatusFormValues :=
  { testCaseResolutionStatusType := some TestCaseResolutionStatusTypes.Assigned
    testCaseFailureReason := none
    testCaseFailureComment := none
    assignee := [{ value := "id-7", name := some "bob", displayName := some "Bob" }] }

/-- Concrete manual mode state with matching passwords for witnesses. -/
def witnessManualState : CreateUserState :=
  { initialCreateUserState false with
    passwordGenerator := CreatePasswordGenerator.CreatePassword
    password := "Abc123!"
    confirmPassword := "Abc123!" }

/-- Concrete manual mode state with a mismatching confirmation for
witnesses. -/
def witnessManualMismatchState : CreateUserState :=
  { witnessManualState with confirmPassword := "Abc124!" }

/-- Reason slot of the spread details, equal to the form value in every
case. -/
theorem formDetails_getD_reason (v : StatusFormValues) :
    ((formDetails v).getD emptyDetails).testCaseFailureReason =
      v.testCaseFailureReason := by
  unfold formDetails
  split
  · rename_i h
    simp [emptyDetails, Option.isNone_iff_eq_none.mp h.1]
  · rfl

/-- Comment slot of the spread details, equal to the form value in every
case. -/
theorem formDetails_getD_comment (v : StatusFormValues) :
    ((formDetails v).getD emptyDetails).testCaseFailureComment =
      v.testCaseFailureComment := by
  unfold formDetails
  split
  · rename_i h
    simp [emptyDetails, Option.isNone_iff_eq_none.mp h.2.1]
  · rfl

/-- C1: in the status modal with statusType Assigned, submission is blocked
while the assignee selection is empty; a submitted request carries in its
details an assignee reference whose id is the value field of the first
selected assignee, whose name and displayName copy that assignee, and whose
type is USER. -/
theorem statusModal_assigned_submission (v : StatusFormValues)
    (fqn : String) (currentUser : Option User)
    (toRef : User → EntityType → EntityReference)
    (hst : v.testCaseResolutionStatusType =
      some TestCaseResolutionStatusTypes.Assigned) :
    (v.assignee = [] → submitStatusForm v fqn currentUser toRef = none) ∧
    (∀ a rest, v.assignee = a :: rest →
      ∃ req, submitStatusForm v fqn currentUser toRef = some req ∧
        req.testCaseResolutionStatusDetails.bind
            TestCaseResolutionStatusDetails.assignee =
          some (AssigneeField.entityRef
            { id := a.value
              type := EntityType.USER
              name := a.name
              displayName := a.displayName })) := by
  constructor
  · intro hempty
    simp [submitStatusForm, validateStatusForm, hst, hempty]
  · intro a rest ha
    refine ⟨handleFormSubmitRequest v TestCaseResolutionStatusTypes.Assigned
      fqn currentUser toRef, ?_, ?_⟩
    · simp [submitStatusForm, validateStatusForm, hst, ha]
    · simp [handleFormSubmitRequest, ha]

/-- C1 witness: a concrete Assigned submission with one selected assignee
goes through and attaches that assignee as a USER reference. -/
theorem statusModal_assigned_submission_witness :
    witnessAssignedValues.testCaseResolutionStatusType =
      some TestCaseResolutionStatusTypes.Assigned ∧
    (∃ req, submitStatusForm witnessAssignedValues "dim.t1" none
        getEntityReferenceFromEntity = some req ∧
      req.testCaseResolutionStatusDetails.bind
          TestCaseResolutionStatusDetails.assignee =
        some (AssigneeField.entityRef
          { id := "id-7"
            type := EntityType.USER
            name := some "bob"
            displayName := some "Bob" })) :=
  ⟨rfl,
   (statusModal_assigned_submission witnessAssignedValues "dim.t1" none
      getEntityReferenceFromEntity rfl).2
     { value := "id-7", name := some "bob", displayName := some "Bob" } [] rfl⟩

/-- C2: every Resolved submission composes a request whose details keep the
form failure reason and comment and whose resolvedBy is the entity reference
derived from the current user with entity type USER. -/
theorem statusModal_resolved_submission (v : StatusFormValues)
    (fqn : String) (u : User) (toRef : User → EntityType → EntityReference)
    (req : CreateTestCaseResolutionStatus)
    (hst : v.testCaseResolutionStatusType =
      some TestCaseResolutionStatusTypes.Resolved)
    (hsub : submitStatusForm v fqn (some u) toRef = some req) :
    ∃ d, req.testCaseResolutionStatusDetails = some d ∧
      d.testCaseFailureReason = v.testCaseFailureReason ∧
      d.testCaseFailureComment = v.testCaseFailureComment ∧
      d.resolvedBy = some (toRef u EntityType.USER) := by
  have hreq : req = handleFormSubmitRequest v
      TestCaseResolutionStatusTypes.Resolved fqn (some u) toRef := by
    by_cases hv : validateStatusForm v
    · rw [submitStatusForm, hst] at hsub
      simp [hv] at hsub
      exact hsub.symm
    · rw [submitStatusForm, hst] at hsub
      simp [hv] at hsub
  subst hreq
  refine ⟨_, rfl, ?_, ?_, ?_⟩
  · exact formDetails_getD_reason v
  · exact formDetails_getD_comment v
  · rfl

/-- C2 witness: the spec scenario with reason Duplicate and comment
"dup of X" submitted by a concrete user. -/
theorem statusModal_resolved_submission_witness :
    (submitStatusForm witnessResolvedValues "dim.t2" (some witnessUser)
       getEntityReferenceFromEntity =
      some (handleFormSubmitRequest witnessResolvedValues
        TestCaseResolutionStatusTypes.Resolved "dim.t2" (some witnessUser)
        getEntityReferenceFromEntity)) ∧
    (∃ d, (handleFormSubmitRequest witnessResolvedValues
        TestCaseResolutionStatusTypes.Resolved "dim.t2" (some witnessUser)
        getEntityReferenceFromEntity).testCaseResolutionStatusDetails = some d ∧
      d.testCaseFailureReason = witnessResolvedValues.testCaseFailureReason ∧
      d.testCaseFailureComment = witnessResolvedValues.testCaseFailureComment ∧
      d.resolvedBy = some (getEntityReferenceFromEntity witnessUser EntityType.USER)) :=
  ⟨by decide,
   statusModal_resolved_submission witnessResolvedValues "dim.t2" witnessUser
     getEntityReferenceFromEntity _ rfl (by decide)⟩

/-- C3: the status options list is exactly Assigned then Resolved when the
prior status is Assigned, and otherwise lists every member of the status enum
exactly once. -/
theorem statusModal_statusOptions (prior : Option TestCaseResolutionStatusTypes) :
    ((statusOptions prior).map StatusOption.value =
      if prior = some TestCaseResolutionStatusTypes.Assigned
      then [TestCaseResolutionStatusTypes.Assigned,
            TestCaseResolutionStatusTypes.Resolved]
      else allStatusValues) ∧
    (∀ t : TestCaseResolutionStatusTypes, t ∈ allStatusValues) ∧
    allStatusValues.Nodup := by
  refine ⟨?_, ?_, by decide⟩
  · rcases prior with _ | t
    · decide
    · cases t <;> decide
  · intro t
    cases t <;> decide

/-- C4 counterexample: with a bot form, provider Okta and exactly the four
required Okta inputs filled, the composed authenticationMechanism.config does
not consist of the four credential fields: its keys are ssoServiceType and
authConfig, and privateKey is not among them. -/
theorem createBot_okta_config_counterexample :
    ∃ am, (handleSave true (some SsoServiceType.Okta) none
        (oktaScenarioState "pk" "cid" "https://org.okta.com" "svc@okta.com")).authenticationMechanism
        = some am ∧
      "ssoServiceType" ∈ am.config.topLevelKeys ∧
      "privateKey" ∉ am.config.topLevelKeys := by
  refine ⟨_, rfl, ?_, ?_⟩ <;> decide

/-- C4 amended: under the same scenario the config is the SSO variant whose
ssoServiceType is Okta and whose nested authConfig object carries exactly the
four filled fields privateKey, clientId, orgURL and email, holding the
entered values. -/
theorem createBot_okta_config (pk cid org em : String) :
    ∃ ac, (handleSave true (some SsoServiceType.Okta) none
        (oktaScenarioState pk cid org em)).authenticationMechanism =
      some { authType := AuthType.Sso
             config := AuthMechanismConfig.sso (some SsoServiceType.Okta) ac } ∧
      ac.setKeys = ["clientId", "privateKey", "orgURL", "email"] ∧
      ac.setKeys.Perm ["privateKey", "clientId", "orgURL", "email"] ∧
      ac.privateKey = some pk ∧ ac.clientId = some cid ∧
      ac.orgURL = some org ∧ ac.email = some em := by
  refine ⟨_, rfl, rfl, ?_, rfl, rfl, rfl, rfl⟩
  exact List.Perm.swap "privateKey" "clientId" ["orgURL", "email"]

/-- C5: the submission event trace posts the composed request after raising
the busy flag; on success it invokes the submit callback with the response
and then the cancel callback; on failure it only shows an error toast, never
invoking either callback, so the modal stays open and the form keeps its
state; in every case the trace is total (no exception escapes) and its last
step clears the busy flag. -/
theorem statusModal_submit_effects {ε ρ : Type} (v : StatusFormValues)
    (st : TestCaseResolutionStatusTypes) (fqn : String)
    (currentUser : Option User) (toRef : User → EntityType → EntityReference)
    (netResult : Except ε ρ) :
    (∀ resp, netResult = Except.ok resp →
      handleFormSubmitEvents v st fqn currentUser toRef netResult =
        [SubmitEvent.setIsLoading true,
         SubmitEvent.postIncidentStatus
           (handleFormSubmitRequest v st fqn currentUser toRef),
         SubmitEvent.onSubmitCalled resp,
         SubmitEvent.onCancelCalled,
         SubmitEvent.setIsLoading false]) ∧
    (∀ e, netResult = Except.error e →
      handleFormSubmitEvents v st fqn currentUser toRef netResult =
        [SubmitEvent.setIsLoading true,
         SubmitEvent.postIncidentStatus
           (handleFormSubmitRequest v st fqn currentUser toRef),
         SubmitEvent.errorToast e,
         SubmitEvent.setIsLoading false] ∧
      (∀ resp : ρ, SubmitEvent.onSubmitCalled resp ∉
        handleFormSubmitEvents v st fqn currentUser toRef netResult) ∧
      SubmitEvent.onCancelCalled ∉
        handleFormSubmitEvents v st fqn currentUser toRef netResult) ∧
    (handleFormSubmitEvents v st fqn currentUser toRef netResult).getLast? =
      some (SubmitEvent.setIsLoading false) := by
  refine ⟨?_, ?_, ?_⟩
  · intro resp hok
    subst hok
    rfl
  · intro e herr
    subst herr
    refine ⟨rfl, ?_, ?_⟩
    · intro resp
      simp [handleFormSubmitEvents]
    · simp [handleFormSubmitEvents]
  · cases netResult <;> rfl

/-- C5 witness: a concrete Resolved submission trace over response type Nat,
on success and on failure. -/
theorem statusModal_submit_effects_witness :
    (@handleFormSubmitEvents Unit Nat witnessResolvedValues
        TestCaseResolutionStatusTypes.Resolved "dim.t3" (some witnessUser)
        getEntityReferenceFromEntity (Except.ok 7) =
      [SubmitEvent.setIsLoading true,
       SubmitEvent.postIncidentStatus
         (handleFormSubmitRequest witnessResolvedValues
           TestCaseResolutionStatusTypes.Resolved "dim.t3" (some witnessUser)
           getEntityReferenceFromEntity),
       SubmitEvent.onSubmitCalled 7,
       SubmitEvent.onCancelCalled,
       SubmitEvent.setIsLoading false]) ∧
    SubmitEvent.onCancelCalled ∉
      @handleFormSubmitEvents Unit Nat witnessResolvedValues
        TestCaseResolutionStatusTypes.Resolved "dim.t3" (some witnessUser)
        getEntityReferenceFromEntity (Except.error ()) :=
  ⟨(statusModal_submit_effects witnessResolvedValues
      TestCaseResolutionStatusTypes.Resolved "dim.t3" (some witnessUser)
      getEntityReferenceFromEntity (Except.ok 7)).1 7 rfl,
   ((statusModal_submit_effects witnessResolvedValues
      TestCaseResolutionStatusTypes.Resolved "dim.t3" (some witnessUser)
      getEntityReferenceFromEntity (Except.error ())).2.1 () rfl).2.2⟩

/-- C6 counterexample: with empty password and empty confirmation the two
values are equal and the confirmation validator resolves, yet the form does
not submit, because the required rules of the password pair reject empty
input; so equality of the pair alone does not let submission proceed. -/
theorem createUser_confirmPassword_counterexample :
    confirmPasswordValidator "" "" = Except.ok () ∧
    submitCreateUserForm true false none none
      { initialCreateUserState false with
        passwordGenerator := CreatePasswordGenerator.CreatePassword } = none := by
  constructor
  · rfl
  · rfl

/-- C6 amended: in manual password mode, when the confirmation equals the
password the validator resolves, and submission proceeds provided the
password is nonempty (its required rule) and the remaining form fields
validate; when the confirmation differs the validator rejects with a mismatch
error and no submission (no onSave invocation) occurs. -/
theorem createUser_confirmPassword (p c : String) (other forceBot : Bool)
    (provider : Option SsoServiceType) (editorContent : Option String)
    (s : CreateUserState)
    (hmode : s.passwordGenerator = CreatePasswordGenerator.CreatePassword)
    (hp : s.password = p) (hc : s.confirmPassword = c) :
    (c = p → confirmPasswordValidator p c = Except.ok () ∧
      (other = true → p ≠ "" →
        submitCreateUserForm other forceBot provider editorContent s =
          some (handleSave forceBot provider editorContent s))) ∧
    (c ≠ p → (∃ msg, confirmPasswordValidator p c = Except.error msg) ∧
      submitCreateUserForm other forceBot provider editorContent s = none) := by
  constructor
  · intro hcp
    constructor
    · simp [confirmPasswordValidator, hcp]
    · intro hother hpne
      subst hother
      have hval : passwordSectionValid s = true := by
        simp [passwordSectionValid, hmode, manualPasswordValid, requiredString,
          passesConfirmRule, confirmPasswordValidator, hp, hc, hcp, hpne]
      simp [submitCreateUserForm, hval]
  · intro hcp
    constructor
    · exact ⟨"Password mismatch", by simp [confirmPasswordValidator, hcp]⟩
    · have hval : passwordSectionValid s = false := by
        simp [passwordSectionValid, hmode, manualPasswordValid, requiredString,
          passesConfirmRule, confirmPasswordValidator, hp, hc, hcp]
      simp [submitCreateUserForm, hval]

/-- C6 witness: the spec scenario with password Abc123!, once with a matching
and once with a mismatching confirmation. -/
theorem createUser_confirmPassword_witness :
    (confirmPasswordValidator "Abc123!" "Abc123!" = Except.ok () ∧
      submitCreateUserForm true false none none witnessManualState =
        some (handleSave false none none witnessManualState)) ∧
    ((∃ msg, confirmPasswordValidator "Abc123!" "Abc124!" = Except.error msg) ∧
      submitCreateUserForm true false none none witnessManualMismatchState = none) := by
  constructor
  · have h := createUser_confirmPassword "Abc123!" "Abc123!" true false none none
      witnessManualState rfl rfl rfl
    exact ⟨(h.1 rfl).1, (h.1 rfl).2 rfl (by decide)⟩
  · have h := createUser_confirmPassword "Abc123!" "Abc124!" true false none none
      witnessManualMismatchState rfl rfl rfl
    exact h.2 (by decide)

/-- Removing one occurrence of id keeps every other element. -/
theorem mem_removeFirst_of_ne (x id : Option String)
    (l : List (Option String)) (hx : x ≠ id) :
    x ∈ removeFirst l id ↔ x ∈ l := by
  induction l with
  | nil => simp [removeFirst]
  | cons y ys ih =>
    by_cases hy : y = id
    · subst hy
      simp [removeFirst, hx]
    · simp [removeFirst, hy, ih]

/-- Elements of the removal result come from the original list. -/
theorem mem_of_mem_removeFirst (x id : Option String)
    (l : List (Option String)) :
    x ∈ removeFirst l id → x ∈ l := by
  induction l with
  | nil => simp [removeFirst]
  | cons y ys ih =>
    by_cases hy : y = id
    · subst hy
      simp only [removeFirst, if_pos rfl]
      intro hx
      exact List.mem_cons_of_mem _ hx
    · simp only [removeFirst, if_neg hy, List.mem_cons]
      rintro (hx | hx)
      · exact Or.inl hx
      · exact Or.inr (ih hx)

/-- On a duplicate free list, removing the first occurrence removes the only
one. -/
theorem not_mem_removeFirst_self (id : Option String)
    (l : List (Option String)) (h : l.Nodup) :
    id ∉ removeFirst l id := by
  induction l with
  | nil => simp [removeFirst]
  | cons y ys ih =>
    rw [List.nodup_cons] at h
    by_cases hy : y = id
    · subst hy
      simpa [removeFirst] using h.1
    · simp only [removeFirst, if_neg hy, List.mem_cons]
      rintro (hx | hx)
      · exact hy hx.symm
      · exact ih h.2 hx

/-- Removing a fresh id just appended returns the original list. -/
theorem removeFirst_append_self (id : Option String)
    (l : List (Option String)) (h : id ∉ l) :
    removeFirst (l ++ [id]) id = l := by
  induction l with
  | nil => simp [removeFirst]
  | cons y ys ih =>
    simp only [List.mem_cons, not_or] at h
    have hy : y ≠ id := fun he => h.1 he.symm
    simp [removeFirst, hy, ih h.2]

/-- Removal preserves freedom from duplicates. -/
theorem removeFirst_nodup (id : Option String)
    (l : List (Option String)) (h : l.Nodup) :
    (removeFirst l id).Nodup := by
  induction l with
  | nil => simp [removeFirst]
  | cons y ys ih =>
    rw [List.nodup_cons] at h
    by_cases hy : y = id
    · subst hy
      simpa [removeFirst] using h.2
    · simp only [removeFirst, if_neg hy, List.nodup_cons]
      exact ⟨fun hx => h.1 (mem_of_mem_removeFirst _ _ _ hx), ih h.2⟩

/-- The toggle handler preserves freedom from duplicates. -/
theorem selectedRolesHandler_nodup (s : List (Option String))
    (id : Option String) (h : s.Nodup) :
    (selectedRolesHandler s id).Nodup := by
  by_cases hm : id ∈ s
  · simpa [selectedRolesHandler, hm] using removeFirst_nodup id s h
  · simp only [selectedRolesHandler, if_neg hm]
    rw [List.nodup_append]
    refine ⟨h, List.nodup_singleton id, ?_⟩
    intro x hx hx2
    simp only [List.mem_singleton] at hx2
    subst hx2
    exact hm hx

/-- C7 counterexample: on the state holding the id some "r1" twice, toggling
that id twice empties the selection, so the resulting membership set differs
from the original one; the double toggle is not a set identity on arbitrary
states. -/
theorem selectedRoles_toggle_counterexample :
    ¬ (∀ x, x ∈ selectedRolesHandler
        (selectedRolesHandler [some "r1", some "r1"] (some "r1")) (some "r1") ↔
          x ∈ [some "r1", some "r1"]) := by
  intro h
  have h1 := (h (some "r1")).mpr (by simp)
  have hred : selectedRolesHandler
      (selectedRolesHandler [some "r1", some "r1"] (some "r1")) (some "r1") =
      ([] : List (Option String)) := by decide
  rw [hred] at h1
  simp at h1

/-- C7 amended: on every duplicate free role selection state, the only states
the handler ever produces from the empty start, toggling an id twice returns
the selection to its original membership set: a present id is removed, an
absent id is added, and the second toggle undoes the first. -/
theorem selectedRoles_toggle_involutive (s : List (Option String))
    (id : Option String) (hnd : s.Nodup) :
    ∀ x, x ∈ selectedRolesHandler (selectedRolesHandler s id) id ↔ x ∈ s := by
  by_cases hm : id ∈ s
  · have h1 : selectedRolesHandler s id = removeFirst s id := by
      simp [selectedRolesHandler, hm]
    have h2 : id ∉ removeFirst s id := not_mem_removeFirst_self id s hnd
    have h3 : selectedRolesHandler (removeFirst s id) id =
        removeFirst s id ++ [id] := by
      simp [selectedRolesHandler, h2]
    intro x
    rw [h1, h3]
    by_cases hx : x = id
    · subst hx
      simp [hm]
    · simp only [List.mem_append, List.mem_singleton, hx, or_false]
      exact mem_removeFirst_of_ne x id s hx
  · have h1 : selectedRolesHandler s id = s ++ [id] := by
      simp [selectedRolesHandler, hm]
    have h2 : id ∈ s ++ [id] := by simp
    have h3 : selectedRolesHandler (s ++ [id]) id =
        removeFirst (s ++ [id]) id := by
      simp [selectedRolesHandler, h2]
    intro x
    rw [h1, h3, removeFirst_append_self id s hm]

/-- C7 witness: toggling a fresh id twice on a concrete duplicate free state
leaves the membership set unchanged. -/
theorem selectedRoles_toggle_involutive_witness :
    ([some "a", some "b"] : List (Option String)).Nodup ∧
    (∀ x, x ∈ selectedRolesHandler
        (selectedRolesHandler [some "a", some "b"] (some "b")) (some "b") ↔
          x ∈ [some "a", some "b"]) :=
  ⟨by decide,
   selectedRoles_toggle_involutive [some "a", some "b"] (some "b") (by decide)⟩

/-- C10: starting from the empty selection, every sequence of toggle
invocations yields a duplicate free role selection list: an id is appended
only when absent and removed otherwise. -/
theorem selectedRoles_nodup_invariant (ops : List (Option String)) :
    (ops.foldl selectedRolesHandler []).Nodup := by
  suffices h : ∀ s : List (Option String), s.Nodup →
      (ops.foldl selectedRolesHandler s).Nodup by
    exact h [] List.nodup_nil
  induction ops with
  | nil =>
    intro s hs
    simpa using hs
  | cons o os ih =>
    intro s hs
    simpa using ih _ (selectedRolesHandler_nodup s o hs)

/-- C8 counterexample: on a successful generate password call no event defers
the lowering of the busy flag behind a timeout, and the trace lowers the flag
immediately at completion; the fixed delay is therefore not applied to the
busy flag. -/
theorem generatePassword_busyClear_counterexample :
    (generateRandomPasswordEvents (Except.ok "pw")).any deferredBusyClear = false ∧
    PwdEvent.now (PwdAction.setIsPasswordGenerating false) ∈
      generateRandomPasswordEvents (Except.ok "pw") := by
  constructor
  · decide
  · decide

/-- C8 amended: the busy flag of the generate password flow is cleared
immediately when the network call completes, as the last immediate step of
the trace and never behind a timeout; what the fixed 500 ms delay defers is
the pair of generated password updates on success. -/
theorem generatePassword_deferred_update (netResult : Except Unit String) :
    (generateRandomPasswordEvents netResult).getLast? =
      some (PwdEvent.now (PwdAction.setIsPasswordGenerating false)) ∧
    (∀ e ∈ generateRandomPasswordEvents netResult, deferredBusyClear e = false) ∧
    (∀ p, netResult = Except.ok p →
      PwdEvent.deferred 500
          [PwdAction.setGeneratedPassword p, PwdAction.setFormFieldValue p] ∈
        generateRandomPasswordEvents netResult) := by
  refine ⟨?_, ?_, ?_⟩
  · cases netResult <;> rfl
  · intro e he
    cases netResult with
    | ok pwd =>
      simp only [generateRandomPasswordEvents, List.cons_append, List.nil_append,
        List.mem_cons, List.not_mem_nil, or_false] at he
      rcases he with h | h | h | h <;> subst h <;> simp [deferredBusyClear, clearsBusyFlag]
    | error err =>
      simp only [generateRandomPasswordEvents, List.cons_append, List.nil_append,
        List.mem_cons, List.not_mem_nil, or_false] at he
      rcases he with h | h | h | h <;> subst h <;> simp [deferredBusyClear]
  · intro p hok
    subst hok
    simp [generateRandomPasswordEvents]

/-- C8 witness: the concrete successful trace clears the busy flag last,
defers no busy flag clearing, and holds the deferred password update. -/
theorem generatePassword_deferred_update_witness :
    (generateRandomPasswordEvents (Except.ok "s3cret")).getLast? =
      some (PwdEvent.now (PwdAction.setIsPasswordGenerating false)) ∧
    deferredBusyClear (PwdEvent.deferred 500
      [PwdAction.setGeneratedPassword "s3cret",
       PwdAction.setFormFieldValue "s3cret"]) = false ∧
    PwdEvent.deferred 500
        [PwdAction.setGeneratedPassword "s3cret",
         PwdAction.setFormFieldValue "s3cret"] ∈
      generateRandomPasswordEvents (Except.ok "s3cret") :=
  ⟨(generatePassword_deferred_update (Except.ok "s3cret")).1,
   (generatePassword_deferred_update (Except.ok "s3cret")).2.1 _
     ((generatePassword_deferred_update (Except.ok "s3cret")).2.2 "s3cret" rfl),
   (generatePassword_deferred_update (Except.ok "s3cret")).2.2 "s3cret" rfl⟩

/-- JavaScript split never yields an empty component list. -/
theorem jsSplit_ne_nil (sep : Char) (l : List Char) : jsSplit sep l ≠ [] := by
  cases l with
  | nil => simp [jsSplit]
  | cons c rest =>
    simp only [jsSplit]
    split
    · simp
    · split <;> simp

/-- The first split component is the prefix before the first separator. -/
theorem jsSplit_headD (sep : Char) (l : List Char) :
    (jsSplit sep l).headD [] = l.takeWhile (fun ch => ch ≠ sep) := by
  induction l with
  | nil => simp [jsSplit]
  | cons c rest ih =>
    by_cases hc : c = sep
    · subst hc
      simp [jsSplit, List.takeWhile]
    · simp only [jsSplit, if_neg hc]
      cases hjs : jsSplit sep rest with
      | nil => exact absurd hjs (jsSplit_ne_nil sep rest)
      | cons h t =>
        rw [hjs] at ih
        simp only [List.headD_cons] at ih
        simp [List.takeWhile, hc, ih]

/-- Without the separator the prefix is the whole list. -/
theorem takeWhile_ne_of_not_mem (sep : Char) (l : List Char) (h : sep ∉ l) :
    l.takeWhile (fun ch => ch ≠ sep) = l := by
  induction l with
  | nil => simp
  | cons c rest ih =>
    simp only [List.mem_cons, not_or] at h
    have hc : c ≠ sep := fun he => h.1 he.symm
    simp [List.takeWhile, hc]
    intro x hx he
    exact h.2 (he ▸ hx)

/-- C9: the name of the composed user payload is the prefix of the entered
email before the first at sign, is the whole email when no at sign occurs,
and never depends on the display name field. -/
theorem createUser_name_from_email (forceBot : Bool)
    (provider : Option SsoServiceType) (editorContent : Option String)
    (s : CreateUserState) :
    ((handleSave forceBot provider editorContent s).name =
      String.mk (s.email.data.takeWhile (fun ch => ch ≠ '@'))) ∧
    ('@' ∉ s.email.data →
      (handleSave forceBot provider editorContent s).name = s.email) ∧
    (∀ dn, (handleSave forceBot provider editorContent
        { s with displayName := dn }).name =
      (handleSave forceBot provider editorContent s).name) := by
  refine ⟨?_, ?_, ?_⟩
  · show String.mk ((jsSplit '@' s.email.data).headD []) =
      String.mk (s.email.data.takeWhile (fun ch => ch ≠ '@'))
    rw [jsSplit_headD]
  · intro h
    show String.mk ((jsSplit '@' s.email.data).headD []) = s.email
    rw [jsSplit_headD, takeWhile_ne_of_not_mem '@' s.email.data h]
  · intro dn
    rfl

/-- C9 witness: a concrete email with a domain keeps its local part as name,
and an email without an at sign is kept whole. -/
theorem createUser_name_from_email_witness :
    ((handleSave false none none
        { initialCreateUserState false with email := "john.doe@open.org" }).name =
      String.mk (("john.doe@open.org" : String).data.takeWhile (fun ch => ch ≠ '@'))) ∧
    (handleSave false none none
        { initialCreateUserState false with email := "nodomain" }).name = "nodomain" :=
  ⟨(createUser_name_from_email false none none
      { initialCreateUserState false with email := "john.doe@open.org" }).1,
   (createUser_name_from_email false none none
      { initialCreateUserState false with email := "nodomain" }).2.1 (by decide)⟩
